import Mathlib

/-!
Shallow embedding of the BurstFire I2C driver
(`src/burstfire_i2c_driver.c` and the ESP-IDF branch of
`src/burstfire_i2c_driver.cpp`).

The driver is single-threaded and synchronous; the vendor bus layer is
modelled as an oracle (`Bus`) giving the result of each primitive call.
Each driver operation is a pure function of the oracle, the global session
state (`g_initialized`, `g_port`) and its arguments; it returns its
`esp_err_t` result, its outputs, and the list of bus-layer calls it issued
(the transaction trace).  Output pointers are modelled by a `Bool` flag for
nullness and an `Option Nat` for the written value (`none` = the byte was
never written, i.e. the caller's buffer keeps its prior contents).
-/

/-- The `esp_err_t` values this layer distinguishes.  `fail n` stands for
any other vendor-level error code (timeout, NACK, bus error), surfaced
verbatim. -/
inductive EspErr where
  | ok
  | invalidArg
  | invalidState
  | fail (code : Nat)
deriving DecidableEq, Repr

/-- One call into the vendor bus layer, as observed on the trace. -/
inductive Txn where
  | write (port addr : Nat) (data : List Nat)
  | writeRead (port addr : Nat) (data : List Nat) (readLen : Nat)
  | paramConfig (port sda scl clk : Nat)
  | driverInstall (port : Nat)
  | driverDelete (port : Nat)
deriving DecidableEq, Repr

/-- The vendor bus layer as a deterministic oracle.  `writeRead` returns the
error code and, as an `Option`, the byte the primitive wrote into the
caller's buffer (`none` when it left the buffer untouched, e.g. on
failure). -/
structure Bus where
  writeTo : Nat → Nat → List Nat → EspErr
  writeRead : Nat → Nat → List Nat → Nat → EspErr × Option Nat
  paramConfig : Nat → Nat → Nat → Nat → EspErr
  driverInstall : Nat → EspErr
  driverDelete : Nat → EspErr

/-- The driver's process-wide session state: `static bool g_initialized`
and `static i2c_port_t g_port`. -/
structure DriverState where
  g_initialized : Bool
  g_port : Nat
deriving DecidableEq, Repr

/-- `burstfire_config_t`. -/
structure BurstfireConfig where
  port : Nat
  sda_pin : Nat
  scl_pin : Nat
  clk_speed : Nat
deriving DecidableEq, Repr

/-- `burstfire_device_info_t`. -/
structure BurstfireDeviceInfo where
  address : Nat
  fw_major : Nat
  fw_minor : Nat
  fw_patch : Nat
  connected : Bool
deriving DecidableEq, Repr

def BURSTFIRE_REG_DUTY : Nat := 0x00
def BURSTFIRE_REG_MAX_DUTY : Nat := 0x01
def BURSTFIRE_REG_GRID_HZ : Nat := 0x02
def BURSTFIRE_REG_FW_MAJOR : Nat := 0x10
def BURSTFIRE_REG_FW_MINOR : Nat := 0x11
def BURSTFIRE_REG_FW_PATCH : Nat := 0x12
def BURSTFIRE_REG_STATUS : Nat := 0x13
def BURSTFIRE_REG_I2C_ADDR : Nat := 0x14

/-- `write_reg`: sends the two bytes `{reg, val}` with
`i2c_master_write_to_device`. -/
def write_reg (b : Bus) (port addr reg val : Nat) : EspErr × List Txn :=
  (b.writeTo port addr [reg, val], [Txn.write port addr [reg, val]])

/-- `read_reg`: sends the one byte `0x80 | reg` and reads one byte back
with `i2c_master_write_read_device`. -/
def read_reg (b : Bus) (port addr reg : Nat) : EspErr × Option Nat × List Txn :=
  let cmd := Nat.lor 0x80 reg
  let r := b.writeRead port addr [cmd] 1
  (r.1, r.2, [Txn.writeRead port addr [cmd] 1])

/-- `burstfire_init`: null-config check, then `i2c_param_config`, then
`i2c_driver_install`; stores the port and sets `g_initialized` only when
both vendor calls succeed. -/
def burstfire_init (b : Bus) (st : DriverState) (config : Option BurstfireConfig) :
    EspErr × DriverState × List Txn :=
  match config with
  | none => (EspErr.invalidArg, st, [])
  | some cfg =>
    let r1 := b.paramConfig cfg.port cfg.sda_pin cfg.scl_pin cfg.clk_speed
    let t1 : List Txn := [Txn.paramConfig cfg.port cfg.sda_pin cfg.scl_pin cfg.clk_speed]
    if r1 ≠ EspErr.ok then (r1, st, t1)
    else
      let r2 := b.driverInstall cfg.port
      let t2 := t1 ++ [Txn.driverInstall cfg.port]
      if r2 ≠ EspErr.ok then (r2, st, t2)
      else (EspErr.ok, { g_initialized := true, g_port := cfg.port }, t2)

/-- `burstfire_deinit` (ESP-IDF-only variant, `.c`): calls
`i2c_driver_delete`, clears `g_initialized` unconditionally, and returns
the delete's result. -/
def burstfire_deinit (b : Bus) (st : DriverState) : EspErr × DriverState × List Txn :=
  if !st.g_initialized then (EspErr.invalidState, st, [])
  else
    let ret := b.driverDelete st.g_port
    (ret, { st with g_initialized := false }, [Txn.driverDelete st.g_port])

/-- `burstfire_set_duty`. -/
def burstfire_set_duty (b : Bus) (st : DriverState) (addr duty : Nat) :
    EspErr × List Txn :=
  if !st.g_initialized then (EspErr.invalidState, [])
  else if duty > 10 then (EspErr.invalidArg, [])
  else write_reg b st.g_port addr BURSTFIRE_REG_DUTY duty

/-- `burstfire_get_duty`; `dutyNull` models `duty == NULL`. -/
def burstfire_get_duty (b : Bus) (st : DriverState) (addr : Nat) (dutyNull : Bool) :
    EspErr × Option Nat × List Txn :=
  if !st.g_initialized then (EspErr.invalidState, none, [])
  else if dutyNull then (EspErr.invalidArg, none, [])
  else read_reg b st.g_port addr BURSTFIRE_REG_DUTY

/-- `burstfire_set_grid_60hz`. -/
def burstfire_set_grid_60hz (b : Bus) (st : DriverState) (addr : Nat) (is_60hz : Bool) :
    EspErr × List Txn :=
  if !st.g_initialized then (EspErr.invalidState, [])
  else write_reg b st.g_port addr BURSTFIRE_REG_GRID_HZ (if is_60hz then 1 else 0)

/-- `burstfire_get_status`; `statusNull` models `status == NULL`. -/
def burstfire_get_status (b : Bus) (st : DriverState) (addr : Nat) (statusNull : Bool) :
    EspErr × Option Nat × List Txn :=
  if !st.g_initialized then (EspErr.invalidState, none, [])
  else if statusNull then (EspErr.invalidArg, none, [])
  else read_reg b st.g_port addr BURSTFIRE_REG_STATUS

/-- `burstfire_is_connected`: zero-length write probe; any failure is
"absent". -/
def burstfire_is_connected (b : Bus) (st : DriverState) (addr : Nat) :
    Bool × List Txn :=
  if !st.g_initialized then (false, [])
  else
    let ret := b.writeTo st.g_port addr []
    ((if ret = EspErr.ok then true else false), [Txn.write st.g_port addr []])

/-- `burstfire_scan_devices`: sweeps addresses `0x20..0x23` in ascending
order, appending each address whose probe succeeds; the written prefix of
the output array is modelled as a list and `*count` as an `Option Nat`. -/
def burstfire_scan_devices (b : Bus) (st : DriverState)
    (addressesNull countNull : Bool) :
    EspErr × List Nat × Option Nat × List Txn :=
  if !st.g_initialized then (EspErr.invalidState, [], none, [])
  else if addressesNull || countNull then (EspErr.invalidArg, [], none, [])
  else
    let step := fun (acc : List Nat × List Txn) (addr : Nat) =>
      let (c, t) := burstfire_is_connected b st addr
      ((if c then acc.1 ++ [addr] else acc.1), acc.2 ++ t)
    let r := [0x20, 0x21, 0x22, 0x23].foldl step ([], [])
    (EspErr.ok, r.1, some r.1.length, r.2)

/-- `burstfire_get_firmware_version`: reads FW major, minor, patch in that
order, returning the first failure; an output that was never handed to the
read primitive is `none`. -/
def burstfire_get_firmware_version (b : Bus) (st : DriverState) (addr : Nat)
    (majorNull minorNull patchNull : Bool) :
    EspErr × Option Nat × Option Nat × Option Nat × List Txn :=
  if !st.g_initialized then (EspErr.invalidState, none, none, none, [])
  else if majorNull || minorNull || patchNull then
    (EspErr.invalidArg, none, none, none, [])
  else
    let r1 := read_reg b st.g_port addr BURSTFIRE_REG_FW_MAJOR
    if r1.1 ≠ EspErr.ok then (r1.1, r1.2.1, none, none, r1.2.2)
    else
      let r2 := read_reg b st.g_port addr BURSTFIRE_REG_FW_MINOR
      if r2.1 ≠ EspErr.ok then (r2.1, r1.2.1, r2.2.1, none, r1.2.2 ++ r2.2.2)
      else
        let r3 := read_reg b st.g_port addr BURSTFIRE_REG_FW_PATCH
        (r3.1, r1.2.1, r2.2.1, r3.2.1, r1.2.2 ++ r2.2.2 ++ r3.2.2)

/-- `burstfire_get_device_info`: writes `info->address`, probes presence,
and either fetches the firmware triple (flipping `connected` back to
`false` and propagating the error on failure) or zero-fills the version
fields.  `prior` is the caller-allocated record's contents before the
call; a field whose byte was never written keeps its prior value. -/
def burstfire_get_device_info (b : Bus) (st : DriverState) (addr : Nat)
    (infoNull : Bool) (prior : BurstfireDeviceInfo) :
    EspErr × BurstfireDeviceInfo × List Txn :=
  if !st.g_initialized then (EspErr.invalidState, prior, [])
  else if infoNull then (EspErr.invalidArg, prior, [])
  else
    let info1 := { prior with address := addr }
    let probe := burstfire_is_connected b st addr
    let info2 := { info1 with connected := probe.1 }
    if probe.1 then
      let fw := burstfire_get_firmware_version b st addr false false false
      let info3 := { info2 with
        fw_major := fw.2.1.getD info2.fw_major,
        fw_minor := fw.2.2.1.getD info2.fw_minor,
        fw_patch := fw.2.2.2.1.getD info2.fw_patch }
      if fw.1 ≠ EspErr.ok then
        (fw.1, { info3 with connected := false }, probe.2 ++ fw.2.2.2.2)
      else (EspErr.ok, info3, probe.2 ++ fw.2.2.2.2)
    else
      (EspErr.ok, { info2 with fw_major := 0, fw_minor := 0, fw_patch := 0 },
       probe.2)

/-!
The ESP-IDF branch of the dual-platform variant
(`src/burstfire_i2c_driver.cpp`, `#else` arms of the `#ifdef ARDUINO`
conditionals).  Every function body is textually identical to the
ESP-IDF-only variant except `burstfire_deinit`, which returns early on a
failed `i2c_driver_delete` and clears `g_initialized` only on success.
-/

namespace Cpp

/-- `write_reg` (`.cpp`, ESP-IDF branch). -/
def write_reg (b : Bus) (port addr reg val : Nat) : EspErr × List Txn :=
  (b.writeTo port addr [reg, val], [Txn.write port addr [reg, val]])

/-- `read_reg` (`.cpp`, ESP-IDF branch). -/
def read_reg (b : Bus) (port addr reg : Nat) : EspErr × Option Nat × List Txn :=
  let cmd := Nat.lor 0x80 reg
  let r := b.writeRead port addr [cmd] 1
  (r.1, r.2, [Txn.writeRead port addr [cmd] 1])

/-- `burstfire_init` (`.cpp`, ESP-IDF branch). -/
def burstfire_init (b : Bus) (st : DriverState) (config : Option BurstfireConfig) :
    EspErr × DriverState × List Txn :=
  match config with
  | none => (EspErr.invalidArg, st, [])
  | some cfg =>
    let r1 := b.paramConfig cfg.port cfg.sda_pin cfg.scl_pin cfg.clk_speed
    let t1 : List Txn := [Txn.paramConfig cfg.port cfg.sda_pin cfg.scl_pin cfg.clk_speed]
    if r1 ≠ EspErr.ok then (r1, st, t1)
    else
      let r2 := b.driverInstall cfg.port
      let t2 := t1 ++ [Txn.driverInstall cfg.port]
      if r2 ≠ EspErr.ok then (r2, st, t2)
      else (EspErr.ok, { g_initialized := true, g_port := cfg.port }, t2)

/-- `burstfire_deinit` (`.cpp`, ESP-IDF branch): on a failed
`i2c_driver_delete` it returns the error and leaves `g_initialized`
set. -/
def burstfire_deinit (b : Bus) (st : DriverState) : EspErr × DriverState × List Txn :=
  if !st.g_initialized then (EspErr.invalidState, st, [])
  else
    let ret := b.driverDelete st.g_port
    if ret ≠ EspErr.ok then (ret, st, [Txn.driverDelete st.g_port])
    else (EspErr.ok, { st with g_initialized := false }, [Txn.driverDelete st.g_port])

/-- `burstfire_set_duty` (`.cpp`). -/
def burstfire_set_duty (b : Bus) (st : DriverState) (addr duty : Nat) :
    EspErr × List Txn :=
  if !st.g_initialized then (EspErr.invalidState, [])
  else if duty > 10 then (EspErr.invalidArg, [])
  else Cpp.write_reg b st.g_port addr BURSTFIRE_REG_DUTY duty

/-- `burstfire_get_duty` (`.cpp`). -/
def burstfire_get_duty (b : Bus) (st : DriverState) (addr : Nat) (dutyNull : Bool) :
    EspErr × Option Nat × List Txn :=
  if !st.g_initialized then (EspErr.invalidState, none, [])
  else if dutyNull then (EspErr.invalidArg, none, [])
  else Cpp.read_reg b st.g_port addr BURSTFIRE_REG_DUTY

/-- `burstfire_set_grid_60hz` (`.cpp`). -/
def burstfire_set_grid_60hz (b : Bus) (st : DriverState) (addr : Nat) (is_60hz : Bool) :
    EspErr × List Txn :=
  if !st.g_initialized then (EspErr.invalidState, [])
  else Cpp.write_reg b st.g_port addr BURSTFIRE_REG_GRID_HZ (if is_60hz then 1 else 0)

/-- `burstfire_get_status` (`.cpp`). -/
def burstfire_get_status (b : Bus) (st : DriverState) (addr : Nat) (statusNull : Bool) :
    EspErr × Option Nat × List Txn :=
  if !st.g_initialized then (EspErr.invalidState, none, [])
  else if statusNull then (EspErr.invalidArg, none, [])
  else Cpp.read_reg b st.g_port addr BURSTFIRE_REG_STATUS

/-- `burstfire_is_connected` (`.cpp`, ESP-IDF branch). -/
def burstfire_is_connected (b : Bus) (st : DriverState) (addr : Nat) :
    Bool × List Txn :=
  if !st.g_initialized then (false, [])
  else
    let ret := b.writeTo st.g_port addr []
    ((if ret = EspErr.ok then true else false), [Txn.write st.g_port addr []])

/-- `burstfire_scan_devices` (`.cpp`). -/
def burstfire_scan_devices (b : Bus) (st : DriverState)
    (addressesNull countNull : Bool) :
    EspErr × List Nat × Option Nat × List Txn :=
  if !st.g_initialized then (EspErr.invalidState, [], none, [])
  else if addressesNull || countNull then (EspErr.invalidArg, [], none, [])
  else
    let step := fun (acc : List Nat × List Txn) (addr : Nat) =>
      let (c, t) := Cpp.burstfire_is_connected b st addr
      ((if c then acc.1 ++ [addr] else acc.1), acc.2 ++ t)
    let r := [0x20, 0x21, 0x22, 0x23].foldl step ([], [])
    (EspErr.ok, r.1, some r.1.length, r.2)

/-- `burstfire_get_firmware_version` (`.cpp`). -/
def burstfire_get_firmware_version (b : Bus) (st : DriverState) (addr : Nat)
    (majorNull minorNull patchNull : Bool) :
    EspErr × Option Nat × Option Nat × Option Nat × List Txn :=
  if !st.g_initialized then (EspErr.invalidState, none, none, none, [])
  else if majorNull || minorNull || patchNull then
    (EspErr.invalidArg, none, none, none, [])
  else
    let r1 := Cpp.read_reg b st.g_port addr BURSTFIRE_REG_FW_MAJOR
    if r1.1 ≠ EspErr.ok then (r1.1, r1.2.1, none, none, r1.2.2)
    else
      let r2 := Cpp.read_reg b st.g_port addr BURSTFIRE_REG_FW_MINOR
      if r2.1 ≠ EspErr.ok then (r2.1, r1.2.1, r2.2.1, none, r1.2.2 ++ r2.2.2)
      else
        let r3 := Cpp.read_reg b st.g_port addr BURSTFIRE_REG_FW_PATCH
        (r3.1, r1.2.1, r2.2.1, r3.2.1, r1.2.2 ++ r2.2.2 ++ r3.2.2)

/-- `burstfire_get_device_info` (`.cpp`). -/
def burstfire_get_device_info (b : Bus) (st : DriverState) (addr : Nat)
    (infoNull : Bool) (prior : BurstfireDeviceInfo) :
    EspErr × BurstfireDeviceInfo × List Txn :=
  if !st.g_initialized then (EspErr.invalidState, prior, [])
  else if infoNull then (EspErr.invalidArg, prior, [])
  else
    let info1 := { prior with address := addr }
    let probe := Cpp.burstfire_is_connected b st addr
    let info2 := { info1 with connected := probe.1 }
    if probe.1 then
      let fw := Cpp.burstfire_get_firmware_version b st addr false false false
      let info3 := { info2 with
        fw_major := fw.2.1.getD info2.fw_major,
        fw_minor := fw.2.2.1.getD info2.fw_minor,
        fw_patch := fw.2.2.2.1.getD info2.fw_patch }
      if fw.1 ≠ EspErr.ok then
        (fw.1, { info3 with connected := false }, probe.2 ++ fw.2.2.2.2)
      else (EspErr.ok, info3, probe.2 ++ fw.2.2.2.2)
    else
      (EspErr.ok, { info2 with fw_major := 0, fw_minor := 0, fw_patch := 0 },
       probe.2)

end Cpp

/-! Concrete fixtures used by witnesses and counterexamples. -/

/-- A presence predicate: the probe (zero-length write) succeeded. -/
def probeAck (b : Bus) (port addr : Nat) : Bool :=
  if b.writeTo port addr [] = EspErr.ok then true else false

/-- An initialized session on port 0. -/
def stInit : DriverState := { g_initialized := true, g_port := 0 }

/-- An uninitialized session. -/
def stUninit : DriverState := { g_initialized := false, g_port := 0 }

/-- A sample config. -/
def cfgA : BurstfireConfig :=
  { port := 0, sda_pin := 4, scl_pin := 5, clk_speed := 100000 }

/-- A sample prior contents of a caller-allocated device-info record. -/
def priorInfo : BurstfireDeviceInfo :=
  { address := 0, fw_major := 3, fw_minor := 4, fw_patch := 5, connected := true }

/-- A bus on which every primitive succeeds; reads return byte 0. -/
def busOkAll : Bus :=
  { writeTo := fun _ _ _ => EspErr.ok,
    writeRead := fun _ _ _ _ => (EspErr.ok, some 0),
    paramConfig := fun _ _ _ _ => EspErr.ok,
    driverInstall := fun _ => EspErr.ok,
    driverDelete := fun _ => EspErr.ok }

/-- A bus where only addresses 0x21 and 0x23 acknowledge the probe. -/
def busScan2123 : Bus :=
  { writeTo := fun _ addr _ =>
      if addr = 0x21 ∨ addr = 0x23 then EspErr.ok else EspErr.fail 1,
    writeRead := fun _ _ _ _ => (EspErr.fail 1, none),
    paramConfig := fun _ _ _ _ => EspErr.ok,
    driverInstall := fun _ => EspErr.ok,
    driverDelete := fun _ => EspErr.ok }

/-- A bus where the probe acknowledges, the FW-major read returns 7, and
every other register read fails. -/
def busMinorFail : Bus :=
  { writeTo := fun _ _ _ => EspErr.ok,
    writeRead := fun _ _ data _ =>
      if data = [0x90] then (EspErr.ok, some 7) else (EspErr.fail 1, none),
    paramConfig := fun _ _ _ _ => EspErr.ok,
    driverInstall := fun _ => EspErr.ok,
    driverDelete := fun _ => EspErr.ok }

/-- A bus where the probe acknowledges but every register read fails
without writing the caller's buffer. -/
def busReadFail : Bus :=
  { writeTo := fun _ _ _ => EspErr.ok,
    writeRead := fun _ _ _ _ => (EspErr.fail 2, none),
    paramConfig := fun _ _ _ _ => EspErr.ok,
    driverInstall := fun _ => EspErr.ok,
    driverDelete := fun _ => EspErr.ok }

/-- A bus where no address acknowledges anything. -/
def busNack : Bus :=
  { writeTo := fun _ _ _ => EspErr.fail 1,
    writeRead := fun _ _ _ _ => (EspErr.fail 1, none),
    paramConfig := fun _ _ _ _ => EspErr.ok,
    driverInstall := fun _ => EspErr.ok,
    driverDelete := fun _ => EspErr.ok }

/-- A bus where `i2c_driver_delete` fails. -/
def busDelFail : Bus :=
  { writeTo := fun _ _ _ => EspErr.ok,
    writeRead := fun _ _ _ _ => (EspErr.ok, some 0),
    paramConfig := fun _ _ _ _ => EspErr.ok,
    driverInstall := fun _ => EspErr.ok,
    driverDelete := fun _ => EspErr.fail 5 }

/-! Claim C1 -/

/-- Claim C1 counterexample: with the session uninitialized, `burstfire_set_duty`
at duty 11 returns `ESP_ERR_INVALID_STATE`, not `ESP_ERR_INVALID_ARG` (the
initialization guard runs before the duty-range check), and at duty 5 it
fails even though `0 ≤ 5 ≤ 10`. -/
theorem set_duty_uninit_counterexample :
    stUninit.g_initialized = false ∧
    (burstfire_set_duty busOkAll stUninit 0x20 11).1 = EspErr.invalidState ∧
    EspErr.invalidState ≠ EspErr.invalidArg ∧
    (burstfire_set_duty busOkAll stUninit 0x20 5).1 ≠ EspErr.ok := by
  decide

/-- Claim C1 (amended): with the session initialized, `burstfire_set_duty`
succeeds iff `duty ≤ 10` and the underlying bus write succeeds, and duty 11
fails with invalid-argument; with the session uninitialized every call,
duty 11 included, fails with invalid-state. -/
theorem set_duty_validation (b : Bus) (st : DriverState) (addr d : Nat) :
    (st.g_initialized = true →
      (((burstfire_set_duty b st addr d).1 = EspErr.ok ↔
         d ≤ 10 ∧ b.writeTo st.g_port addr [BURSTFIRE_REG_DUTY, d] = EspErr.ok) ∧
       (d = 11 → (burstfire_set_duty b st addr d).1 = EspErr.invalidArg))) ∧
    (st.g_initialized = false →
      (burstfire_set_duty b st addr d).1 = EspErr.invalidState) := by
  constructor
  · intro hinit
    constructor
    · by_cases hd : d > 10
      · simp only [burstfire_set_duty, hinit, hd, write_reg, if_true, if_false,
          Bool.not_true, Bool.false_eq_true]
        constructor
        · intro h
          exact absurd h (by simp)
        · intro h
          omega
      · simp only [burstfire_set_duty, hinit, hd, write_reg, if_true, if_false,
          Bool.not_true, Bool.false_eq_true]
        constructor
        · intro h
          exact ⟨by omega, h⟩
        · intro h
          exact h.2
    · intro hd
      subst hd
      simp [burstfire_set_duty, hinit]
  · intro hinit
    simp [burstfire_set_duty, hinit]

theorem set_duty_validation_witness :
    (burstfire_set_duty busOkAll stInit 0x20 11).1 = EspErr.invalidArg :=
  ((set_duty_validation busOkAll stInit 0x20 11).1 rfl).2 rfl

/-! Claim C2 -/

/-- Claim C2: whenever the session is uninitialized, every
`esp_err_t`-returning device operation (set/get duty, set grid frequency,
get status, scan, get firmware version, get device info, and deinit itself)
returns `ESP_ERR_INVALID_STATE` with an empty transaction trace; moreover
deinit from any initialized session leaves the session uninitialized, so a
second consecutive deinit returns `ESP_ERR_INVALID_STATE`. -/
theorem uninitialized_fails_fast (b : Bus) (st : DriverState)
    (h : st.g_initialized = false)
    (addr d : Nat) (flag p q r : Bool) (prior : BurstfireDeviceInfo) :
    burstfire_set_duty b st addr d = (EspErr.invalidState, []) ∧
    burstfire_get_duty b st addr p = (EspErr.invalidState, none, []) ∧
    burstfire_set_grid_60hz b st addr flag = (EspErr.invalidState, []) ∧
    burstfire_get_status b st addr p = (EspErr.invalidState, none, []) ∧
    burstfire_scan_devices b st p q = (EspErr.invalidState, [], none, []) ∧
    burstfire_get_firmware_version b st addr p q r =
      (EspErr.invalidState, none, none, none, []) ∧
    burstfire_get_device_info b st addr p prior = (EspErr.invalidState, prior, []) ∧
    burstfire_deinit b st = (EspErr.invalidState, st, []) ∧
    (∀ st2 : DriverState, st2.g_initialized = true →
      (burstfire_deinit b st2).2.1.g_initialized = false ∧
      (burstfire_deinit b (burstfire_deinit b st2).2.1).1 = EspErr.invalidState) := by
  refine ⟨?_, ?_, ?_, ?_, ?_, ?_, ?_, ?_, ?_⟩
  · simp [burstfire_set_duty, h]
  · simp [burstfire_get_duty, h]
  · simp [burstfire_set_grid_60hz, h]
  · simp [burstfire_get_status, h]
  · simp [burstfire_scan_devices, h]
  · simp [burstfire_get_firmware_version, h]
  · simp [burstfire_get_device_info, h]
  · simp [burstfire_deinit, h]
  · intro st2 h2
    simp [burstfire_deinit, h2]

theorem uninitialized_fails_fast_witness :
    burstfire_set_duty busOkAll stUninit 0x20 5 = (EspErr.invalidState, []) ∧
    (burstfire_deinit busOkAll (burstfire_deinit busOkAll stInit).2.1).1 =
      EspErr.invalidState := by
  have h := uninitialized_fails_fast busOkAll stUninit rfl 0x20 5 true true true true
    priorInfo
  exact ⟨h.1, (h.2.2.2.2.2.2.2.2 stInit rfl).2⟩

/-! Claim C5 -/

/-- Claim C5: every register write issues exactly one bus transaction
carrying the two bytes `[register_id, value]`, and every register read
issues exactly one combined write-then-read transaction carrying the one
byte `register_id | 0x80` with a one-byte read-back. -/
theorem register_wire_format (b : Bus) (port addr reg val : Nat) :
    write_reg b port addr reg val =
      (b.writeTo port addr [reg, val], [Txn.write port addr [reg, val]]) ∧
    read_reg b port addr reg =
      ((b.writeRead port addr [Nat.lor 0x80 reg] 1).1,
       (b.writeRead port addr [Nat.lor 0x80 reg] 1).2,
       [Txn.writeRead port addr [Nat.lor 0x80 reg] 1]) := by
  exact ⟨rfl, rfl⟩

/-! Claim C3 -/

/-- Claim C3: with the session initialized and non-null output pointers,
`burstfire_scan_devices` probes every address 0x20–0x23 in ascending order
(the trace is exactly the four probe transactions in that order), writes
exactly the acknowledging addresses to the output array in ascending order,
writes their number as the count, and returns `ESP_OK`; a failed probe is
treated as "absent" and the sweep continues. -/
theorem scan_devices_sweep (b : Bus) (st : DriverState)
    (h : st.g_initialized = true) :
    burstfire_scan_devices b st false false =
      (EspErr.ok,
       [0x20, 0x21, 0x22, 0x23].filter (fun a => probeAck b st.g_port a),
       some (([0x20, 0x21, 0x22, 0x23].filter (fun a => probeAck b st.g_port a)).length),
       [Txn.write st.g_port 0x20 [], Txn.write st.g_port 0x21 [],
        Txn.write st.g_port 0x22 [], Txn.write st.g_port 0x23 []]) := by
  simp only [burstfire_scan_devices, burstfire_is_connected, probeAck, h,
    Bool.not_true, Bool.false_eq_true, if_false, Bool.or_self, List.foldl,
    List.filter]
  by_cases h20 : b.writeTo st.g_port 0x20 [] = EspErr.ok <;>
    by_cases h21 : b.writeTo st.g_port 0x21 [] = EspErr.ok <;>
      by_cases h22 : b.writeTo st.g_port 0x22 [] = EspErr.ok <;>
        by_cases h23 : b.writeTo st.g_port 0x23 [] = EspErr.ok <;>
          simp [h20, h21, h22, h23]

/-- Claim C3 witness: on a bus where only 0x21 and 0x23 acknowledge, the
scan returns exactly `[0x21, 0x23]` with count 2 after probing all four
addresses. -/
theorem scan_devices_sweep_witness :
    burstfire_scan_devices busScan2123 stInit false false =
      (EspErr.ok, [0x21, 0x23], some 2,
       [Txn.write 0 0x20 [], Txn.write 0 0x21 [],
        Txn.write 0 0x22 [], Txn.write 0 0x23 []]) := by
  have h := scan_devices_sweep busScan2123 stInit rfl
  rw [h]
  decide

/-! Claim C6 -/

/-- Claim C6: with the session initialized and non-null output pointers,
`burstfire_get_firmware_version` reads the major, minor, and patch
registers in that order; it aborts at the first read failure, returns
that failure, and the outputs of the registers it never read are left
unwritten (`none`), as the three cases' traces show. -/
theorem get_firmware_version_sequential (b : Bus) (st : DriverState) (addr : Nat)
    (h : st.g_initialized = true) :
    ((b.writeRead st.g_port addr [Nat.lor 0x80 BURSTFIRE_REG_FW_MAJOR] 1).1 ≠ EspErr.ok →
       burstfire_get_firmware_version b st addr false false false =
         ((b.writeRead st.g_port addr [Nat.lor 0x80 BURSTFIRE_REG_FW_MAJOR] 1).1,
          (b.writeRead st.g_port addr [Nat.lor 0x80 BURSTFIRE_REG_FW_MAJOR] 1).2,
          none, none,
          [Txn.writeRead st.g_port addr [Nat.lor 0x80 BURSTFIRE_REG_FW_MAJOR] 1])) ∧
    ((b.writeRead st.g_port addr [Nat.lor 0x80 BURSTFIRE_REG_FW_MAJOR] 1).1 = EspErr.ok →
     (b.writeRead st.g_port addr [Nat.lor 0x80 BURSTFIRE_REG_FW_MINOR] 1).1 ≠ EspErr.ok →
       burstfire_get_firmware_version b st addr false false false =
         ((b.writeRead st.g_port addr [Nat.lor 0x80 BURSTFIRE_REG_FW_MINOR] 1).1,
          (b.writeRead st.g_port addr [Nat.lor 0x80 BURSTFIRE_REG_FW_MAJOR] 1).2,
          (b.writeRead st.g_port addr [Nat.lor 0x80 BURSTFIRE_REG_FW_MINOR] 1).2,
          none,
          [Txn.writeRead st.g_port addr [Nat.lor 0x80 BURSTFIRE_REG_FW_MAJOR] 1,
           Txn.writeRead st.g_port addr [Nat.lor 0x80 BURSTFIRE_REG_FW_MINOR] 1])) ∧
    ((b.writeRead st.g_port addr [Nat.lor 0x80 BURSTFIRE_REG_FW_MAJOR] 1).1 = EspErr.ok →
     (b.writeRead st.g_port addr [Nat.lor 0x80 BURSTFIRE_REG_FW_MINOR] 1).1 = EspErr.ok →
       burstfire_get_firmware_version b st addr false false false =
         ((b.writeRead st.g_port addr [Nat.lor 0x80 BURSTFIRE_REG_FW_PATCH] 1).1,
          (b.writeRead st.g_port addr [Nat.lor 0x80 BURSTFIRE_REG_FW_MAJOR] 1).2,
          (b.writeRead st.g_port addr [Nat.lor 0x80 BURSTFIRE_REG_FW_MINOR] 1).2,
          (b.writeRead st.g_port addr [Nat.lor 0x80 BURSTFIRE_REG_FW_PATCH] 1).2,
          [Txn.writeRead st.g_port addr [Nat.lor 0x80 BURSTFIRE_REG_FW_MAJOR] 1,
           Txn.writeRead st.g_port addr [Nat.lor 0x80 BURSTFIRE_REG_FW_MINOR] 1,
           Txn.writeRead st.g_port addr [Nat.lor 0x80 BURSTFIRE_REG_FW_PATCH] 1])) := by
  refine ⟨?_, ?_, ?_⟩
  · intro h1
    simp [burstfire_get_firmware_version, read_reg, h, h1]
  · intro h1 h2
    simp [burstfire_get_firmware_version, read_reg, h, h1, h2]
  · intro h1 h2
    simp [burstfire_get_firmware_version, read_reg, h, h1, h2]

/-- Claim C6 witness: on a bus where the major read returns 7 and the minor
read fails, the function returns the minor-read failure with the patch
output unwritten and only two transactions on the trace. -/
theorem get_firmware_version_sequential_witness :
    burstfire_get_firmware_version busMinorFail stInit 0x20 false false false =
      (EspErr.fail 1, some 7, none, none,
       [Txn.writeRead 0 0x20 [0x90] 1, Txn.writeRead 0 0x20 [0x91] 1]) := by
  have h := (get_firmware_version_sequential busMinorFail stInit 0x20 rfl).2.1
    (by decide) (by decide)
  rw [h]
  decide

/-! Claim C7 -/

/-- Claim C7: with the session initialized and a non-null info pointer, if
the address does not acknowledge the presence probe then
`burstfire_get_device_info` returns `ESP_OK` with `connected = false` and
firmware triple (0, 0, 0), and its trace is exactly the single probe
transaction — no further bus transaction is attempted. -/
theorem get_device_info_absent (b : Bus) (st : DriverState) (addr : Nat)
    (prior : BurstfireDeviceInfo)
    (hinit : st.g_initialized = true)
    (hnack : b.writeTo st.g_port addr [] ≠ EspErr.ok) :
    burstfire_get_device_info b st addr false prior =
      (EspErr.ok,
       { address := addr, fw_major := 0, fw_minor := 0, fw_patch := 0,
         connected := false },
       [Txn.write st.g_port addr []]) := by
  simp [burstfire_get_device_info, burstfire_is_connected, hinit, hnack]

/-- Claim C7 witness: on a bus where nothing acknowledges, device info at
0x20 is `ESP_OK`, disconnected, all-zero firmware, one probe on the
trace. -/
theorem get_device_info_absent_witness :
    burstfire_get_device_info busNack stInit 0x20 false priorInfo =
      (EspErr.ok,
       { address := 0x20, fw_major := 0, fw_minor := 0, fw_patch := 0,
         connected := false },
       [Txn.write 0 0x20 []]) :=
  get_device_info_absent busNack stInit 0x20 priorInfo rfl (by decide)

/-! Claim C10 -/

/-- Claim C10: with the session initialized and a non-null info pointer,
`burstfire_get_device_info` writes `info->address = addr` before any bus
transaction, so the returned snapshot's address field equals `addr` on
every outcome — including the error return when the firmware read fails. -/
theorem get_device_info_address_always_set (b : Bus) (st : DriverState)
    (addr : Nat) (prior : BurstfireDeviceInfo)
    (hinit : st.g_initialized = true) :
    (burstfire_get_device_info b st addr false prior).2.1.address = addr := by
  simp only [burstfire_get_device_info, burstfire_is_connected, hinit,
    Bool.not_true, Bool.false_eq_true, if_false]
  by_cases hp : b.writeTo st.g_port addr [] = EspErr.ok <;>
    by_cases hf : (burstfire_get_firmware_version b st addr false false false).1
        = EspErr.ok <;>
      simp [hp, hf]

/-- Claim C10 witness: on a bus where the probe acknowledges but the
firmware read fails (an error return with a partially populated snapshot),
the snapshot's address field equals the argument. -/
theorem get_device_info_address_always_set_witness :
    (burstfire_get_device_info busReadFail stInit 0x22 false priorInfo).2.1.address
      = 0x22 :=
  get_device_info_address_always_set busReadFail stInit 0x22 priorInfo rfl

/-! Claim C4 -/

/-- Claim C4 counterexample: on a bus where the probe acknowledges, the
FW-major read succeeds with value 7, and the FW-minor read fails, the
firmware version read fails, yet the snapshot's `fw_major` field is 7 —
neither its prior value 3 nor zero.  So the claim's frame condition ("the
snapshot's firmware version fields are left at their prior/zero state")
does not hold for every firmware-version read failure. -/
theorem get_device_info_prior_state_counterexample :
    (burstfire_get_device_info busMinorFail stInit 0x20 false priorInfo).1 =
      EspErr.fail 1 ∧
    (burstfire_get_device_info busMinorFail stInit 0x20 false priorInfo).2.1.fw_major
      = 7 ∧
    priorInfo.fw_major = 3 ∧ (7 : Nat) ≠ 3 ∧ (7 : Nat) ≠ 0 := by
  decide

/-- Claim C4 (amended): with the session initialized, for every address
that acknowledges the presence probe but whose firmware version read
fails, `burstfire_get_device_info` sets `connected = false` and returns
the underlying read failure; the version fields of the registers the
aborted read never reached keep their prior state unconditionally (minor
and patch when the major read fails, patch when the minor read fails),
while a field whose read was already attempted holds the byte the bus
primitive delivered — so a field read successfully before the failure is
overwritten with the delivered byte — or keeps its prior value when the
primitive delivered none. -/
theorem get_device_info_rollback (b : Bus) (st : DriverState) (addr : Nat)
    (prior : BurstfireDeviceInfo)
    (hinit : st.g_initialized = true)
    (hack : b.writeTo st.g_port addr [] = EspErr.ok) :
    ((burstfire_get_firmware_version b st addr false false false).1 ≠ EspErr.ok →
      ((burstfire_get_device_info b st addr false prior).1 =
         (burstfire_get_firmware_version b st addr false false false).1 ∧
       (burstfire_get_device_info b st addr false prior).2.1.connected = false)) ∧
    ((b.writeRead st.g_port addr [Nat.lor 0x80 BURSTFIRE_REG_FW_MAJOR] 1).1 ≠ EspErr.ok →
      ((burstfire_get_device_info b st addr false prior).2.1.fw_major =
         ((b.writeRead st.g_port addr [Nat.lor 0x80 BURSTFIRE_REG_FW_MAJOR] 1).2).getD
           prior.fw_major ∧
       (burstfire_get_device_info b st addr false prior).2.1.fw_minor = prior.fw_minor ∧
       (burstfire_get_device_info b st addr false prior).2.1.fw_patch = prior.fw_patch)) ∧
    ((b.writeRead st.g_port addr [Nat.lor 0x80 BURSTFIRE_REG_FW_MAJOR] 1).1 = EspErr.ok →
     (b.writeRead st.g_port addr [Nat.lor 0x80 BURSTFIRE_REG_FW_MINOR] 1).1 ≠ EspErr.ok →
      ((burstfire_get_device_info b st addr false prior).2.1.fw_major =
         ((b.writeRead st.g_port addr [Nat.lor 0x80 BURSTFIRE_REG_FW_MAJOR] 1).2).getD
           prior.fw_major ∧
       (burstfire_get_device_info b st addr false prior).2.1.fw_minor =
         ((b.writeRead st.g_port addr [Nat.lor 0x80 BURSTFIRE_REG_FW_MINOR] 1).2).getD
           prior.fw_minor ∧
       (burstfire_get_device_info b st addr false prior).2.1.fw_patch = prior.fw_patch)) ∧
    ((b.writeRead st.g_port addr [Nat.lor 0x80 BURSTFIRE_REG_FW_MAJOR] 1).1 = EspErr.ok →
     (b.writeRead st.g_port addr [Nat.lor 0x80 BURSTFIRE_REG_FW_MINOR] 1).1 = EspErr.ok →
      ((burstfire_get_device_info b st addr false prior).2.1.fw_major =
         ((b.writeRead st.g_port addr [Nat.lor 0x80 BURSTFIRE_REG_FW_MAJOR] 1).2).getD
           prior.fw_major ∧
       (burstfire_get_device_info b st addr false prior).2.1.fw_minor =
         ((b.writeRead st.g_port addr [Nat.lor 0x80 BURSTFIRE_REG_FW_MINOR] 1).2).getD
           prior.fw_minor ∧
       (burstfire_get_device_info b st addr false prior).2.1.fw_patch =
         ((b.writeRead st.g_port addr [Nat.lor 0x80 BURSTFIRE_REG_FW_PATCH] 1).2).getD
           prior.fw_patch)) := by
  refine ⟨?_, ?_, ?_, ?_⟩
  · intro hf
    simp [burstfire_get_device_info, burstfire_is_connected, hinit, hack, hf]
  · intro h1
    have hf : (burstfire_get_firmware_version b st addr false false false).1
        ≠ EspErr.ok := by
      simp [burstfire_get_firmware_version, read_reg, hinit, h1]
    simp [burstfire_get_device_info, burstfire_is_connected,
      burstfire_get_firmware_version, read_reg, hinit, hack, h1, hf]
  · intro h1 h2
    have hf : (burstfire_get_firmware_version b st addr false false false).1
        ≠ EspErr.ok := by
      simp [burstfire_get_firmware_version, read_reg, hinit, h1, h2]
    simp [burstfire_get_device_info, burstfire_is_connected,
      burstfire_get_firmware_version, read_reg, hinit, hack, h1, h2, hf]
  · intro h1 h2
    by_cases h3 : (b.writeRead st.g_port addr [Nat.lor 0x80 BURSTFIRE_REG_FW_PATCH] 1).1
        = EspErr.ok <;>
      by_cases hf : (burstfire_get_firmware_version b st addr false false false).1
          = EspErr.ok <;>
        simp [burstfire_get_device_info, burstfire_is_connected,
          burstfire_get_firmware_version, read_reg, hinit, hack, h1, h2, h3, hf]

/-- Claim C4 witness: on a bus where the probe acknowledges, the FW-major
read delivers 7, and the FW-minor read fails without delivering a byte,
device info returns the read failure with `connected = false`, `fw_major`
overwritten with the delivered 7, and `fw_minor`/`fw_patch` at their prior
values 4 and 5. -/
theorem get_device_info_rollback_witness :
    (burstfire_get_device_info busMinorFail stInit 0x20 false priorInfo).1 =
      EspErr.fail 1 ∧
    (burstfire_get_device_info busMinorFail stInit 0x20 false priorInfo).2.1.connected
      = false ∧
    (burstfire_get_device_info busMinorFail stInit 0x20 false priorInfo).2.1.fw_major
      = 7 ∧
    (burstfire_get_device_info busMinorFail stInit 0x20 false priorInfo).2.1.fw_minor
      = 4 ∧
    (burstfire_get_device_info busMinorFail stInit 0x20 false priorInfo).2.1.fw_patch
      = 5 := by
  have h := get_device_info_rollback busMinorFail stInit 0x20 priorInfo rfl (by decide)
  have h1 := h.1 (by decide)
  have h3 := h.2.2.1 (by decide) (by decide)
  exact ⟨by rw [h1.1]; decide, h1.2, by rw [h3.1]; decide,
    by rw [h3.2.1]; decide, by rw [h3.2.2]; decide⟩

/-! Claim C8 -/

/-- Claim C8 counterexample: when `i2c_driver_delete` fails on an
initialized session, the ESP-IDF-only variant's deinit clears
`g_initialized` while the dual-platform variant's deinit leaves it set, so
the two variants do not leave the session state the same. -/
theorem variant_equivalence_counterexample :
    (burstfire_deinit busDelFail stInit).1 = EspErr.fail 5 ∧
    (Cpp.burstfire_deinit busDelFail stInit).1 = EspErr.fail 5 ∧
    (burstfire_deinit busDelFail stInit).2.1.g_initialized = false ∧
    (Cpp.burstfire_deinit busDelFail stInit).2.1.g_initialized = true := by
  decide

/-- Claim C8 (amended): every public operation except deinit returns the
same result and leaves the session state the same in both variants, and
deinit returns the same `esp_err_t` in both; but when the underlying bus
teardown fails on an initialized session, the ESP-IDF-only variant clears
the initialized flag while the dual-platform variant leaves the session
initialized (when teardown succeeds the two deinits agree completely). -/
theorem variant_equivalence (b : Bus) (st : DriverState)
    (config : Option BurstfireConfig) (addr d : Nat) (flag p q r : Bool)
    (prior : BurstfireDeviceInfo) :
    Cpp.burstfire_init b st config = burstfire_init b st config ∧
    Cpp.burstfire_set_duty b st addr d = burstfire_set_duty b st addr d ∧
    Cpp.burstfire_get_duty b st addr p = burstfire_get_duty b st addr p ∧
    Cpp.burstfire_set_grid_60hz b st addr flag = burstfire_set_grid_60hz b st addr flag ∧
    Cpp.burstfire_get_status b st addr p = burstfire_get_status b st addr p ∧
    Cpp.burstfire_is_connected b st addr = burstfire_is_connected b st addr ∧
    Cpp.burstfire_scan_devices b st p q = burstfire_scan_devices b st p q ∧
    Cpp.burstfire_get_firmware_version b st addr p q r =
      burstfire_get_firmware_version b st addr p q r ∧
    Cpp.burstfire_get_device_info b st addr p prior =
      burstfire_get_device_info b st addr p prior ∧
    (Cpp.burstfire_deinit b st).1 = (burstfire_deinit b st).1 ∧
    (b.driverDelete st.g_port = EspErr.ok →
      Cpp.burstfire_deinit b st = burstfire_deinit b st) ∧
    (st.g_initialized = true → b.driverDelete st.g_port ≠ EspErr.ok →
      ((burstfire_deinit b st).2.1.g_initialized = false ∧
       (Cpp.burstfire_deinit b st).2.1.g_initialized = true)) := by
  refine ⟨rfl, rfl, rfl, rfl, rfl, rfl, rfl, rfl, rfl, ?_, ?_, ?_⟩
  · by_cases h : st.g_initialized
    · by_cases hd : b.driverDelete st.g_port = EspErr.ok <;>
        simp [burstfire_deinit, Cpp.burstfire_deinit, h, hd]
    · simp [burstfire_deinit, Cpp.burstfire_deinit, h]
  · intro hd
    by_cases h : st.g_initialized <;>
      simp [burstfire_deinit, Cpp.burstfire_deinit, h, hd]
  · intro h hd
    simp [burstfire_deinit, Cpp.burstfire_deinit, h, hd]

theorem variant_equivalence_witness :
    Cpp.burstfire_set_duty busOkAll stInit 0x20 5 =
      burstfire_set_duty busOkAll stInit 0x20 5 ∧
    (burstfire_deinit busDelFail stInit).2.1.g_initialized = false ∧
    (Cpp.burstfire_deinit busDelFail stInit).2.1.g_initialized = true := by
  have h := variant_equivalence busDelFail stInit none 0x20 5 true true true true
    priorInfo
  have h2 := h.2.2.2.2.2.2.2.2.2.2.2 rfl (by decide)
  exact ⟨rfl, h2.1, h2.2⟩

/-! Claim C9 -/

/-- Claim C9 counterexample: `burstfire_init` has no double-init guard — on
an already-initialized session with a non-null config and a healthy bus it
runs a second full bus configuration (`i2c_param_config` then
`i2c_driver_install`). -/
theorem init_double_config_counterexample :
    stInit.g_initialized = true ∧
    (burstfire_init busOkAll stInit (some cfgA)).2.2 =
      [Txn.paramConfig 0 4 5 100000, Txn.driverInstall 0] ∧
    (burstfire_init busOkAll stInit (some cfgA)).1 = EspErr.ok := by
  decide

/-- Claim C9 (amended): `burstfire_init` fails with invalid-argument while
performing no bus operation iff the config is null (in which case the
session state is untouched); with a non-null config it always issues the
bus parameter-configuration call first — even when a session is already
initialized, so a second Initialize does start a second bus
configuration. -/
theorem init_validation (b : Bus) (st : DriverState)
    (config : Option BurstfireConfig) :
    (((burstfire_init b st config).1 = EspErr.invalidArg ∧
      (burstfire_init b st config).2.2 = []) ↔ config = none) ∧
    (config = none → (burstfire_init b st config).2.1 = st) ∧
    (∀ cfg, config = some cfg →
      (burstfire_init b st config).2.2.head? =
        some (Txn.paramConfig cfg.port cfg.sda_pin cfg.scl_pin cfg.clk_speed)) := by
  refine ⟨⟨?_, ?_⟩, ?_, ?_⟩
  · intro h
    match hc : config with
    | none => rfl
    | some cfg =>
      exfalso
      have := h.2
      by_cases h1 : b.paramConfig cfg.port cfg.sda_pin cfg.scl_pin cfg.clk_speed
          = EspErr.ok <;>
        by_cases h2 : b.driverInstall cfg.port = EspErr.ok <;>
          simp [burstfire_init, h1, h2] at this
  · intro h
    subst h
    exact ⟨rfl, rfl⟩
  · intro h
    subst h
    rfl
  · intro cfg h
    subst h
    by_cases h1 : b.paramConfig cfg.port cfg.sda_pin cfg.scl_pin cfg.clk_speed
        = EspErr.ok <;>
      by_cases h2 : b.driverInstall cfg.port = EspErr.ok <;>
        simp [burstfire_init, h1, h2]

theorem init_validation_witness :
    (burstfire_init busOkAll stUninit none).1 = EspErr.invalidArg ∧
    (burstfire_init busOkAll stInit (some cfgA)).2.2.head? =
      some (Txn.paramConfig 0 4 5 100000) := by
  have h1 := (init_validation busOkAll stUninit none).1.mpr rfl
  have h2 := (init_validation busOkAll stInit (some cfgA)).2.2 cfgA rfl
  exact ⟨h1.1, h2⟩
